import Mathlib

/-!
# Shallow embedding of the ecdosim utility scripts

This file embeds the numeric transforms of the repository's standalone
scripts (raster post-processing under `step2-processing/`, Blender keyframe
manipulation under `step3-blender/`) as pure Lean functions, and proves the
specification claims about them.

Python floating-point values are modelled by exact rationals (`ℚ`): every
arithmetic operation the claims are about (negation, addition,
multiplication, division by a nonzero denominator, comparison against an
epsilon) is exact in the scripts' intended value ranges, and the claims
themselves are stated in terms of exact arithmetic identities.
Machine integer frames obtained by Python's `int(round(x))` are modelled by
`pyRound : ℚ → ℤ`, which reproduces Python's round-half-to-even.
-/

/-! ## Common data model -/

/-- A Blender F-Curve keyframe point: `co` is the (frame, value) pair,
`handle_left` and `handle_right` are the Bézier handle coordinates.
Mirrors `fcurve.keyframe_points[i]` with `.co`, `.handle_left`,
`.handle_right`. -/
structure Keyframe where
  co : ℚ × ℚ
  handle_left : ℚ × ℚ
  handle_right : ℚ × ℚ
  deriving DecidableEq, Repr

/-- Python's `round` to an integer: round half to even (banker's rounding),
as used in `int(round(kp.co.x))`. -/
def pyRound (q : ℚ) : ℤ :=
  let f := ⌊q⌋
  let frac := q - f
  if frac < 1/2 then f
  else if 1/2 < frac then f + 1
  else if f % 2 = 0 then f else f + 1

/-- `EPS = 1e-12` of `SCRIPTBLENDER7-REVERSE-VORTEX.py` (also the zero
threshold of `SCRIPTBLENDER98-RUNNING-SUM-FORCE.py` and the degenerate-frame
guard of `SCRIPTBLENDER99-scale-inward-force-to-0.py`). -/
def eps12 : ℚ := 1 / 1000000000000

/-- `EPS = 1e-6` of `SCRIPTBLENDER97-adjust-timescale.py`. -/
def eps6 : ℚ := 1 / 1000000

/-- `sorted(fc.keyframe_points, key=lambda kp: kp.co.x)` — a stable
insertion sort on the frame coordinate, as used by
`SCRIPTBLENDER98-RUNNING-SUM-FORCE.py` (`sorted_keyframes_points`) and
`SCRIPTBLENDER99-scale-inward-force-to-0.py`. -/
def insertByFrame (k : Keyframe) : List Keyframe → List Keyframe
  | [] => [k]
  | x :: xs => if x.co.1 ≤ k.co.1 then x :: insertByFrame k xs else k :: x :: xs

/-- Sort a keyframe list by frame (`kp.co.x`). -/
def sortByFrame (kps : List Keyframe) : List Keyframe :=
  kps.foldr insertByFrame []

/-! ## SCRIPTBLENDER7-REVERSE-VORTEX.py -/

/-- The per-keyframe body of `invert_vortex_strength_keyframes`: if the
strength magnitude exceeds `EPS = 1e-12`, negate the value (`kp.co[1]`) and
shift both handles' y by the same delta `new_val - old_val`; otherwise the
keyframe is skipped. The frame (`kp.co[0]`) is never written. -/
def invertKf (kp : Keyframe) : Keyframe :=
  let old_val := kp.co.2
  if |old_val| > eps12 then
    let new_val := -old_val
    let delta := new_val - old_val
    ⟨(kp.co.1, new_val),
     (kp.handle_left.1, kp.handle_left.2 + delta),
     (kp.handle_right.1, kp.handle_right.2 + delta)⟩
  else kp

/-- `invert_vortex_strength_keyframes` applied to one F-Curve's keyframe
list: the script loops over `fc.keyframe_points` and applies the body to
each point independently. -/
def invert_vortex_strength_keyframes (kps : List Keyframe) : List Keyframe :=
  kps.map invertKf

/-! ## SCRIPTBLENDER97-adjust-timescale.py -/

/-- The per-keyframe body of `retime_keyframes_by_scale`: keys within
`EPS = 1e-6` of frame 0 or frame 1 never move; every other key moves to
`new_frame = 1 + (old_frame - 1) * scale` with both handle x-positions
shifted by the same delta `dx = new_frame - old_frame`.  Values (y) are
never written. -/
def retimeKf (scale : ℚ) (k : Keyframe) : Keyframe :=
  let old_f := k.co.1
  if |old_f - 0| < eps6 then k
  else if |old_f - 1| < eps6 then k
  else
    let new_f := 1 + (old_f - 1) * scale
    let dx := new_f - old_f
    ⟨(new_f, k.co.2),
     (k.handle_left.1 + dx, k.handle_left.2),
     (k.handle_right.1 + dx, k.handle_right.2)⟩

/-- `retime_keyframes_by_scale` applied to one F-Curve's keyframe list:
the script loops over `fc.keyframe_points` and retimes each point
independently. -/
def retime_keyframes_by_scale (scale : ℚ) (kfs : List Keyframe) :
    List Keyframe :=
  kfs.map (retimeKf scale)

/-! ## step2-processing/script7-chop-bottom.py -/

/-- A numpy band dtype, as the scripts distinguish them:
`np.issubdtype(dt, np.integer)` carries `np.iinfo` bounds,
`np.issubdtype(dt, np.floating)` is modelled exactly, and anything else is
`other` (only reachable in `get_white_value`'s fallback). -/
inductive NpDtype where
  | int (lo hi : ℤ)
  | float
  | other
  deriving DecidableEq, Repr

/-- One raster cell of a band read with `masked=True`: `value` is the
underlying `band.data` sample and `valid` is `~band.mask` (True iff the
cell is not NoData). -/
structure Pixel where
  value : ℚ
  valid : Bool
  deriving DecidableEq, Repr

/-- Threshold preparation of `script7-chop-bottom.py`: for an integer band
dtype, `thr = max(info.min, min(info.max, int(round(thr))))`; for other
dtypes the cast `np_dtype.type(thr)` leaves the value unchanged in the
exact model. -/
def adjThreshold (dt : NpDtype) (thr : ℚ) : ℚ :=
  match dt with
  | NpDtype.int lo hi => ((max lo (min hi (pyRound thr)) : ℤ) : ℚ)
  | _ => thr

/-- The per-pixel clamp of `script7-chop-bottom.py`:
`replace_mask = valid_mask & (band.data < thr)` and
`replaced_data[replace_mask] = thr`, with the mask itself unchanged. -/
def chopPixel (thr : ℚ) (p : Pixel) : Pixel :=
  if p.valid = true ∧ p.value < thr then ⟨thr, p.valid⟩ else p

/-- The whole clamp transform of `script7-chop-bottom.py` on a single band,
with the threshold already adjusted for the band dtype. -/
def chopBottom (dt : NpDtype) (t : ℚ) (band : List Pixel) : List Pixel :=
  band.map (chopPixel (adjThreshold dt t))

/-! ## step2-processing/script95-border.py -/

/-- `BORDER_THICKNESS_PIXELS = 100` of `script95-border.py`. -/
def BORDER_THICKNESS_PIXELS : ℕ := 100

/-- `get_white_value` shared by `script95-border.py` and
`script94-v12-circlecrop.py`: `np.iinfo(dt).max` for integer dtypes, `1.0`
for floating dtypes, `255` otherwise. -/
def get_white_value (dt : NpDtype) : ℚ :=
  match dt with
  | NpDtype.int _ hi => (hi : ℚ)
  | NpDtype.float => 1
  | NpDtype.other => 255

/-- An in-memory raster as the scripts see it: `data b r c` is the sample
of band `b` at row `r`, column `c`. -/
structure Raster where
  count : ℕ
  height : ℕ
  width : ℕ
  dtype : NpDtype
  data : ℕ → ℕ → ℕ → ℚ

/-- `add_border` of `script95-border.py`: rasters whose band count is not
1 or 4 raise `ValueError`; otherwise the output is a
`(height + 2*border) x (width + 2*border)` raster filled with the dtype's
white value, with the original pasted at offset `(border, border)`:
`out_data[:, border:border+height, border:border+width] = data`. -/
def add_border (src : Raster) : Except String Raster :=
  if src.count = 1 ∨ src.count = 4 then
    let border := BORDER_THICKNESS_PIXELS
    let white_value := get_white_value src.dtype
    Except.ok
      ⟨src.count, src.height + 2 * border, src.width + 2 * border, src.dtype,
       fun b r c =>
         if border ≤ r ∧ r < border + src.height
             ∧ border ≤ c ∧ c < border + src.width
         then src.data b (r - border) (c - border)
         else white_value⟩
  else
    Except.error
      "Expected either a single-band grayscale or 4-band RGB(A) GeoTIFF"

/-! ## step2-processing/script94-v12-circlecrop.py -/

/-- `compute_circle_mask` of `script94-v12-circlecrop.py` at one pixel:
True iff pixel `(r, c)` lies inside or on the circle centred at
`((width-1)/2, (height-1)/2)` whose radius is the distance from the centre
to the closest border. -/
def compute_circle_mask (height width r c : ℕ) : Bool :=
  let cx : ℚ := ((width : ℚ) - 1) / 2
  let cy : ℚ := ((height : ℚ) - 1) / 2
  let dist_left := cx
  let dist_right := ((width : ℚ) - 1) - cx
  let dist_top := cy
  let dist_bottom := ((height : ℚ) - 1) - cy
  let radius := min (min dist_left dist_right) (min dist_top dist_bottom)
  decide (((c : ℚ) - cx) ^ 2 + ((r : ℚ) - cy) ^ 2 ≤ radius ^ 2)

/-- The band transform of `process_geotiff` in
`script94-v12-circlecrop.py`: `out_band[~mask_inside] = white_value`,
pixels inside the circle are kept. -/
def circleCropBand (height width : ℕ) (dt : NpDtype) (band : ℕ → ℕ → ℚ) :
    ℕ → ℕ → ℚ :=
  fun r c =>
    if compute_circle_mask height width r c then band r c
    else get_white_value dt

/-! ## SCRIPTBLENDER98-RUNNING-SUM-FORCE.py -/

/-- `INWARD_NEG_NAME` — this object receives `-running_sum` keys. -/
def INWARD_NEG_NAME : String := "inward-squared-force"

/-- `INWARD_POS_NAME` — this object receives `+running_sum` keys. -/
def INWARD_POS_NAME : String := "inward-squared-negative"

/-- One `insert_strength_key(obj, frame, value)` call: the name of the
object whose `field.strength` receives a keyframe, the frame, and the
value. -/
structure InsertEvent where
  objName : String
  frame : ℤ
  value : ℚ
  deriving DecidableEq, Repr

/-- The loop of `main` in `SCRIPTBLENDER98-RUNNING-SUM-FORCE.py` from the
second keyframe onward, carrying the previous keyframe (for the defensive
branch), the `last_zero_frame` tracker and the `running_sum`.  A key with
`|value| < 1e-12` only updates the tracker; a non-zero key accumulates
`value * (frame - last_zero_frame)` into the running sum and emits two
insertions: `+running_sum` on `inward_pos` and `-running_sum` on
`inward_neg`.  When no zero key has been seen yet, the previous keyframe's
frame is used (and recorded) as the tracker. -/
def runSumGo (inward_pos inward_neg : String) :
    Keyframe → List Keyframe → Option ℤ → ℚ → List InsertEvent
  | _, [], _, _ => []
  | prev, kp :: rest, last_zero_frame, running_sum =>
    let frame_i := pyRound kp.co.1
    let val_i := kp.co.2
    if |val_i| < eps12 then
      runSumGo inward_pos inward_neg kp rest (some frame_i) running_sum
    else
      let lzf := match last_zero_frame with
        | some z => z
        | none => pyRound prev.co.1
      let frame_dist := frame_i - lzf
      let rs2 := running_sum + val_i * (frame_dist : ℚ)
      ⟨inward_pos, frame_i, rs2⟩ :: ⟨inward_neg, frame_i, -rs2⟩ ::
        runSumGo inward_pos inward_neg kp rest (some lzf) rs2

/-- `main` of `SCRIPTBLENDER98-RUNNING-SUM-FORCE.py`, returning the list of
keyframe insertions it performs on the two inward-force objects (in call
order).  An empty keyframe list raises (`none`).  The first (sorted)
keyframe is never modified and triggers no insertion; it only seeds the
`last_zero_frame` tracker when its value is (near) zero. -/
def runningSumMain (kps : List Keyframe) : Option (List InsertEvent) :=
  match sortByFrame kps with
  | [] => none
  | first_kp :: rest =>
    let first_frame := pyRound first_kp.co.1
    let first_val := first_kp.co.2
    let last_zero_frame : Option ℤ :=
      if |first_val| < eps12 then some first_frame else none
    some (runSumGo INWARD_POS_NAME INWARD_NEG_NAME first_kp rest
      last_zero_frame 0)

/-- The insertion schedule exactly as claim C1 words it (spec side, for
comparison with `runningSumMain`): walking the keyframes after the first
with the frame of the most recent zero-valued keyframe and a running sum,
a zero-valued key (`|v| < 1e-12`) only updates the tracker, and any other
key adds `v * (frame - last zero frame)` to the sum and inserts
`+running_sum` on `INWARD_POS_NAME` and `-running_sum` on
`INWARD_NEG_NAME` at its own frame. -/
def claimRunningSumLog : List Keyframe → ℤ → ℚ → List InsertEvent
  | [], _, _ => []
  | kp :: rest, lastZeroFrame, runningSum =>
    let f := pyRound kp.co.1
    let v := kp.co.2
    if |v| < eps12 then claimRunningSumLog rest f runningSum
    else
      let s := runningSum + v * ((f - lastZeroFrame : ℤ) : ℚ)
      ⟨INWARD_POS_NAME, f, s⟩ :: ⟨INWARD_NEG_NAME, f, -s⟩ ::
        claimRunningSumLog rest lastZeroFrame s

/-! ## SCRIPTBLENDER99-scale-inward-force-to-0.py -/

/-- `factor = 1.0 - (frame - second_frame) / (last_frame - second_frame)`. -/
def scaleFactor (second_frame last_frame frame : ℚ) : ℚ :=
  1 - (frame - second_frame) / (last_frame - second_frame)

/-- The per-keyframe body of the `SCRIPTBLENDER99` loop (with
`SCALE_HANDLES = True`): `kf.co.y *= factor` and both handles' y are
scaled by the same factor; x coordinates are untouched. -/
def scaleKf (second_frame last_frame : ℚ) (kf : Keyframe) : Keyframe :=
  let factor := scaleFactor second_frame last_frame kf.co.1
  ⟨(kf.co.1, kf.co.2 * factor),
   (kf.handle_left.1, kf.handle_left.2 * factor),
   (kf.handle_right.1, kf.handle_right.2 * factor)⟩

/-- The keyframe stage of `SCRIPTBLENDER99-scale-inward-force-to-0.py` on
an already frame-sorted keyframe list: fewer than 3 keyframes are skipped;
`second_frame` and `last_frame` are read from `kfs[1]` and `kfs[-1]`; if
`abs(last_frame - second_frame) < 1e-12` the curve is skipped; otherwise
every keyframe from the third onward is scaled by
`scaleFactor second_frame last_frame frame`. -/
def scaleInwardSorted (kfs : List Keyframe) : List Keyframe :=
  match kfs with
  | k0 :: k1 :: k2 :: rest =>
    let second_frame := k1.co.1
    let last_frame := ((k2 :: rest).getLast (by simp)).co.1
    if |last_frame - second_frame| < eps12 then k0 :: k1 :: k2 :: rest
    else k0 :: k1 :: (k2 :: rest).map (scaleKf second_frame last_frame)
  | short => short

/-- The whole per-object transform of
`SCRIPTBLENDER99-scale-inward-force-to-0.py`: sort by frame, then scale
from the third keyframe onward. -/
def scale_inward_force_to_0 (kps : List Keyframe) : List Keyframe :=
  scaleInwardSorted (sortByFrame kps)

/-! ## CLI validation outcomes (C5) -/

/-- The stream a message is written to. -/
inductive OutStream where
  | stdout
  | stderr
  deriving DecidableEq, Repr

/-- How a script invocation ends before doing real work: it proceeds, it
prints a message to a stream and exits with a status code, or it raises an
exception that nobody catches (Python then prints a traceback to stderr
and the process dies with status 1). -/
inductive CliOutcome where
  | proceed
  | exitMsg (stream : OutStream) (msg : String) (code : ℕ)
  | uncaught (exn : String)
  deriving DecidableEq, Repr

/-- An invocation ends abnormally: it does not proceed, and any explicit
exit uses a non-zero status. -/
def abnormal : CliOutcome → Bool
  | CliOutcome.proceed => false
  | CliOutcome.exitMsg _ _ code => decide (code ≠ 0)
  | CliOutcome.uncaught _ => true

/-- Argument/input validation of `script6-convert-grayscale.py` (manual
`sys.argv` checks): wrong argument count, an unparsable `<scale>`, and a
missing input file each print a message to standard output and
`sys.exit(1)`. -/
def script6Validate (argc : ℕ) (scale_parses file_found : Bool) :
    CliOutcome :=
  if argc ≠ 3 then
    CliOutcome.exitMsg OutStream.stdout
      "Usage: python gray_scale_single_band.py <relative_path_to_tif> <scale>"
      1
  else if scale_parses = false then
    CliOutcome.exitMsg OutStream.stdout "Error: <scale> must be a number." 1
  else if file_found = false then
    CliOutcome.exitMsg OutStream.stdout "Error: file not found" 1
  else CliOutcome.proceed

/-- Argument/input validation of `script7-chop-bottom.py`: `argparse`
rejections (missing path, missing/unparsable `--threshold`) print usage to
standard error and exit with status 2; a missing input file makes
`rasterio.open` raise an uncaught `RasterioIOError`; a band count other
than 1 prints an error to standard output and `sys.exit(2)`. -/
def script7Validate (args_ok file_found : Bool) (band_count : ℕ) :
    CliOutcome :=
  if args_ok = false then
    CliOutcome.exitMsg OutStream.stderr
      "usage: script7-chop-bottom.py tif_path --threshold THRESHOLD" 2
  else if file_found = false then
    CliOutcome.uncaught "RasterioIOError"
  else if band_count ≠ 1 then
    CliOutcome.exitMsg OutStream.stdout
      "Error: Expected a single-band TIFF" 2
  else CliOutcome.proceed

/-- Argument/input validation of `script95-border.py`: `argparse`
rejections print usage to standard error and exit with status 2; a missing
input file raises an uncaught `FileNotFoundError`
(`raise FileNotFoundError(...)` in `main`); a band count other than 1 or 4
raises an uncaught `ValueError` inside `add_border`. -/
def script95Validate (args_ok file_found : Bool) (band_count : ℕ) :
    CliOutcome :=
  if args_ok = false then
    CliOutcome.exitMsg OutStream.stderr
      "usage: script95-border.py input_geotiff" 2
  else if file_found = false then
    CliOutcome.uncaught "FileNotFoundError"
  else if band_count ≠ 1 ∧ band_count ≠ 4 then
    CliOutcome.uncaught "ValueError"
  else CliOutcome.proceed

/-! ## Theorems -/

/-- Helper: inverting twice restores the keyframe completely (values,
handles and frames). -/
theorem invertKf_invertKf (kp : Keyframe) : invertKf (invertKf kp) = kp := by
  by_cases h : |kp.co.2| > eps12
  · have h2 : |(-kp.co.2)| > eps12 := by rwa [abs_neg]
    cases kp with
    | mk co hl hr =>
      simp only [invertKf] at *
      simp only [if_pos h]
      simp only [if_pos h2]
      simp only [Keyframe.mk.injEq]
      refine ⟨?_, ?_, ?_⟩ <;> apply Prod.ext <;> simp <;> ring
  · simp only [invertKf, if_neg h]

/-- C4: `invert_vortex_strength_keyframes` negates every strength keyframe
whose magnitude exceeds `1e-12`, shifting both handles' y by the delta
`new value - old value`, leaves near-zero keyframes unchanged, and never
changes the frame. -/
theorem reverse_vortex_correct (kps : List Keyframe) (kp : Keyframe)
    (hmem : kp ∈ kps) :
    invertKf kp ∈ invert_vortex_strength_keyframes kps
    ∧ (|kp.co.2| > eps12 →
        invertKf kp = ⟨(kp.co.1, -kp.co.2),
          (kp.handle_left.1, kp.handle_left.2 + (-kp.co.2 - kp.co.2)),
          (kp.handle_right.1, kp.handle_right.2 + (-kp.co.2 - kp.co.2))⟩)
    ∧ (|kp.co.2| ≤ eps12 → invertKf kp = kp)
    ∧ (invertKf kp).co.1 = kp.co.1 := by
  refine ⟨List.mem_map_of_mem _ hmem, ?_, ?_, ?_⟩
  · intro h
    simp [invertKf, h]
  · intro h
    simp [invertKf, not_lt.mpr h]
  · by_cases h : |kp.co.2| > eps12 <;> simp [invertKf, h]

/-- Witness for C4 at a concrete keyframe list. -/
theorem reverse_vortex_correct_witness :
    invertKf ⟨(5, 3), (4, 2), (6, 4)⟩ ∈
      invert_vortex_strength_keyframes [⟨(5, 3), (4, 2), (6, 4)⟩]
    ∧ invertKf ⟨(5, 3), (4, 2), (6, 4)⟩ =
        ⟨(5, -3), (4, 2 + (-3 - 3)), (6, 4 + (-3 - 3))⟩ := by
  have h := reverse_vortex_correct [⟨(5, 3), (4, 2), (6, 4)⟩]
    ⟨(5, 3), (4, 2), (6, 4)⟩ (by simp)
  exact ⟨h.1, h.2.1 (by norm_num [eps12])⟩

/-- C9: applying `invert_vortex_strength_keyframes` twice leaves every
keyframe's strength value (`co.y`) equal to its original value: negation on
exact values is an involution and the skip test `|v| <= 1e-12` holds for
`v` iff it holds for `-v`. -/
theorem reverse_vortex_involution (kps : List Keyframe) :
    (invert_vortex_strength_keyframes
        (invert_vortex_strength_keyframes kps)).map (fun kp => kp.co.2)
      = kps.map (fun kp => kp.co.2) := by
  simp only [invert_vortex_strength_keyframes, List.map_map]
  apply List.map_congr_left
  intro kp _
  simp [Function.comp, invertKf_invertKf]

/-- C3: the timescale-adjust script retimes keyframes around pivot frame 1:
keys within `1e-6` of frame 0 or frame 1 do not move; every other key moves
to `1 + (old_frame - 1) * SCALE` with both handle x-positions shifted by
the same delta, and no y-value changes. -/
theorem adjust_timescale_correct (scale : ℚ) (kfs : List Keyframe)
    (k : Keyframe) (hmem : k ∈ kfs) :
    retimeKf scale k ∈ retime_keyframes_by_scale scale kfs
    ∧ (|k.co.1 - 0| < eps6 → retimeKf scale k = k)
    ∧ (|k.co.1 - 1| < eps6 → retimeKf scale k = k)
    ∧ (¬ |k.co.1 - 0| < eps6 → ¬ |k.co.1 - 1| < eps6 →
        retimeKf scale k =
          ⟨(1 + (k.co.1 - 1) * scale, k.co.2),
           (k.handle_left.1 + ((1 + (k.co.1 - 1) * scale) - k.co.1),
            k.handle_left.2),
           (k.handle_right.1 + ((1 + (k.co.1 - 1) * scale) - k.co.1),
            k.handle_right.2)⟩) := by
  refine ⟨List.mem_map_of_mem _ hmem, ?_, ?_, ?_⟩
  · intro h0
    rw [sub_zero] at h0
    simp [retimeKf, h0]
  · intro h1
    by_cases h0 : |k.co.1| < eps6 <;> simp [retimeKf, h0, h1]
  · intro h0 h1
    rw [sub_zero] at h0
    simp [retimeKf, h0, h1]

/-- Witness for C3: a keyframe at frame 5 with scale 2 moves to frame 9. -/
theorem adjust_timescale_correct_witness :
    retimeKf 2 ⟨(5, 7), (4, 6), (6, 8)⟩ =
      ⟨(1 + (5 - 1) * 2, 7),
       (4 + ((1 + (5 - 1) * 2) - 5), 6),
       (6 + ((1 + (5 - 1) * 2) - 5), 8)⟩ := by
  have h := adjust_timescale_correct 2 [⟨(5, 7), (4, 6), (6, 8)⟩]
    ⟨(5, 7), (4, 6), (6, 8)⟩ (by simp)
  exact h.2.2.2 (by norm_num [eps6]) (by norm_num [eps6])

/-- C2: the chop-bottom script replaces every valid pixel strictly below
the (dtype-adjusted) threshold by the threshold, leaves valid pixels at or
above it unchanged, rounds and clamps the threshold into an integer
dtype's range, and sends a pixel valued 10 with threshold 50 to 50. -/
theorem chop_bottom_correct (dt : NpDtype) (t : ℚ) (band : List Pixel)
    (p : Pixel) (hmem : p ∈ band) (hv : p.valid = true) :
    (p.value < adjThreshold dt t →
      chopPixel (adjThreshold dt t) p = ⟨adjThreshold dt t, p.valid⟩)
    ∧ (adjThreshold dt t ≤ p.value → chopPixel (adjThreshold dt t) p = p)
    ∧ chopPixel (adjThreshold dt t) p ∈ chopBottom dt t band
    ∧ (∀ lo hi : ℤ,
        adjThreshold (NpDtype.int lo hi) t
          = ((max lo (min hi (pyRound t)) : ℤ) : ℚ))
    ∧ chopPixel (adjThreshold NpDtype.float 50) ⟨10, true⟩ = ⟨50, true⟩ := by
  refine ⟨?_, ?_, List.mem_map_of_mem _ hmem, fun lo hi => rfl, ?_⟩
  · intro h
    simp [chopPixel, hv, h]
  · intro h
    simp [chopPixel, not_lt.mpr h]
  · norm_num [chopPixel, adjThreshold]

/-- Witness for C2: the spec's own example, a valid pixel valued 10 with
threshold 50 on a float band becomes 50. -/
theorem chop_bottom_correct_witness :
    chopPixel (adjThreshold NpDtype.float 50) ⟨10, true⟩
      = ⟨adjThreshold NpDtype.float 50, true⟩ :=
  (chop_bottom_correct NpDtype.float 50 [⟨10, true⟩] ⟨10, true⟩ (by simp)
    rfl).1 (by norm_num [adjThreshold])

/-- Helper: one clamp pass is enough — a second pass replaces nothing. -/
theorem chopPixel_chopPixel (thr : ℚ) (p : Pixel) :
    chopPixel thr (chopPixel thr p) = chopPixel thr p := by
  by_cases h : p.valid = true ∧ p.value < thr
  · simp [chopPixel, h, lt_irrefl]
  · simp [chopPixel, h]

/-- C8: the chop-bottom clamp transform is idempotent (same dtype and
threshold), and it preserves the NoData mask. -/
theorem chop_bottom_idempotent (dt : NpDtype) (t : ℚ) (band : List Pixel) :
    chopBottom dt t (chopBottom dt t band) = chopBottom dt t band
    ∧ (chopBottom dt t band).map Pixel.valid = band.map Pixel.valid := by
  constructor
  · simp only [chopBottom, List.map_map]
    apply List.map_congr_left
    intro p _
    simp [Function.comp, chopPixel_chopPixel]
  · simp only [chopBottom, List.map_map]
    apply List.map_congr_left
    intro p _
    by_cases h : p.valid = true ∧ p.value < adjThreshold dt t <;>
      simp [Function.comp, chopPixel, h]

/-- C7: the border-padding script, on a 1- or 4-band raster, outputs a
`(w + 200) x (h + 200)` raster whose central `w x h` block equals the input
on every band and whose pixels outside that block are the dtype's white
value (integer max, or 1.0 for floats); any other band count raises. -/
theorem border_correct (src : Raster) :
    ((src.count = 1 ∨ src.count = 4) →
      ∃ out : Raster, add_border src = Except.ok out
        ∧ out.count = src.count
        ∧ out.height = src.height + 200
        ∧ out.width = src.width + 200
        ∧ (∀ b r c, r < src.height → c < src.width →
            out.data b (100 + r) (100 + c) = src.data b r c)
        ∧ (∀ b r c,
            ¬(100 ≤ r ∧ r < 100 + src.height
              ∧ 100 ≤ c ∧ c < 100 + src.width) →
            out.data b r c = get_white_value src.dtype))
    ∧ (¬(src.count = 1 ∨ src.count = 4) →
        add_border src =
          Except.error
            "Expected either a single-band grayscale or 4-band RGB(A) GeoTIFF")
    ∧ (∀ lo hi : ℤ, get_white_value (NpDtype.int lo hi) = (hi : ℚ))
    ∧ get_white_value NpDtype.float = 1 := by
  refine ⟨?_, ?_, fun lo hi => rfl, rfl⟩
  · intro hc
    simp only [add_border, if_pos hc, BORDER_THICKNESS_PIXELS]
    refine ⟨_, rfl, rfl, by norm_num, by norm_num, ?_, ?_⟩
    · intro b r c hr hcc
      dsimp only
      split_ifs with hcase
      · congr 1 <;> omega
      · exact absurd (by omega) hcase
    · intro b r c hout
      dsimp only
      exact if_neg hout
  · intro hc
    simp [add_border, hc]

/-- Witness for C7: a concrete 1-band 2x3 float raster. -/
theorem border_correct_witness :
    ∃ out : Raster,
      add_border ⟨1, 2, 3, NpDtype.float, fun _ r c => (r : ℚ) + c⟩
          = Except.ok out
        ∧ out.count = 1
        ∧ out.height = 2 + 200
        ∧ out.width = 3 + 200
        ∧ (∀ b r c, r < 2 → c < 3 →
            out.data b (100 + r) (100 + c) = ((r : ℚ) + c))
        ∧ (∀ b r c, ¬(100 ≤ r ∧ r < 100 + 2 ∧ 100 ≤ c ∧ c < 100 + 3) →
            out.data b r c = get_white_value NpDtype.float) :=
  (border_correct ⟨1, 2, 3, NpDtype.float, fun _ r c => (r : ℚ) + c⟩).1
    (Or.inl rfl)

/-- C6: the embedded transforms are deterministic — running the clamp
transform or the circle-mask transform twice on equal inputs with equal
constants produces equal outputs. -/
theorem transforms_deterministic :
    (∀ (dt : NpDtype) (t : ℚ) (b1 b2 : List Pixel), b1 = b2 →
        chopBottom dt t b1 = chopBottom dt t b2)
    ∧ (∀ (h w : ℕ) (dt : NpDtype) (band1 band2 : ℕ → ℕ → ℚ),
        band1 = band2 →
        circleCropBand h w dt band1 = circleCropBand h w dt band2) := by
  constructor
  · intro dt t b1 b2 e
    rw [e]
  · intro h w dt b1 b2 e
    rw [e]

/-- Witness for C6 at concrete inputs. -/
theorem transforms_deterministic_witness :
    chopBottom NpDtype.float 50 [⟨10, true⟩]
        = chopBottom NpDtype.float 50 [⟨10, true⟩]
    ∧ circleCropBand 3 3 NpDtype.float (fun r c => (r : ℚ) + c)
        = circleCropBand 3 3 NpDtype.float (fun r c => (r : ℚ) + c) :=
  ⟨transforms_deterministic.1 NpDtype.float 50 _ _ rfl,
   transforms_deterministic.2 3 3 NpDtype.float _ _ rfl⟩

/-- Helper for C1: once a zero keyframe has been seen, the script's loop
computes exactly the schedule described by the claim. -/
theorem runSumGo_eq_claim (rest : List Keyframe) :
    ∀ (prev : Keyframe) (z : ℤ) (rs : ℚ),
      runSumGo INWARD_POS_NAME INWARD_NEG_NAME prev rest (some z) rs
        = claimRunningSumLog rest z rs := by
  induction rest with
  | nil =>
    intro prev z rs
    rfl
  | cons kp rest ih =>
    intro prev z rs
    by_cases h : |kp.co.2| < eps12
    · simp only [runSumGo, claimRunningSumLog, if_pos h]
      exact ih kp (pyRound kp.co.1) rs
    · simp only [runSumGo, claimRunningSumLog, if_neg h]
      rw [ih kp z]

/-- C1: when the first (frame-sorted) keyframe of the vortex strength curve
is zero-valued, the running-sum script leaves it alone and inserts, for
every later non-zero keyframe (`|v| >= 1e-12`), a key of `+running_sum` on
`INWARD_POS_NAME` and `-running_sum` on `INWARD_NEG_NAME` at that frame,
where the running sum accumulates `v * (frame - most recent zero frame)`;
zero-valued keyframes only move the tracker and insert nothing. -/
theorem running_sum_correct (kps : List Keyframe) (first_kp : Keyframe)
    (rest : List Keyframe) (hsort : sortByFrame kps = first_kp :: rest)
    (hzero : |first_kp.co.2| < eps12) :
    runningSumMain kps
      = some (claimRunningSumLog rest (pyRound first_kp.co.1) 0) := by
  unfold runningSumMain
  rw [hsort]
  simp only [if_pos hzero]
  rw [runSumGo_eq_claim]

/-- Witness for C1: a concrete curve valued 0, 2, 0, 3 at frames 0, 10,
20, 30 produces insertions of plus and minus 20 at frame 10 and plus and
minus 50 at frame 30. -/
theorem running_sum_correct_witness :
    runningSumMain
        [⟨(0, 0), (0, 0), (0, 0)⟩, ⟨(10, 2), (0, 0), (0, 0)⟩,
         ⟨(20, 0), (0, 0), (0, 0)⟩, ⟨(30, 3), (0, 0), (0, 0)⟩]
      = some (claimRunningSumLog
          [⟨(10, 2), (0, 0), (0, 0)⟩, ⟨(20, 0), (0, 0), (0, 0)⟩,
           ⟨(30, 3), (0, 0), (0, 0)⟩] (pyRound 0) 0)
    ∧ claimRunningSumLog
          [⟨(10, 2), (0, 0), (0, 0)⟩, ⟨(20, 0), (0, 0), (0, 0)⟩,
           ⟨(30, 3), (0, 0), (0, 0)⟩] (pyRound 0) 0
        = [⟨INWARD_POS_NAME, 10, 20⟩, ⟨INWARD_NEG_NAME, 10, -20⟩,
           ⟨INWARD_POS_NAME, 30, 50⟩, ⟨INWARD_NEG_NAME, 30, -50⟩] := by
  constructor
  · exact running_sum_correct _ ⟨(0, 0), (0, 0), (0, 0)⟩ _
      (by norm_num [sortByFrame, insertByFrame]) (by norm_num [eps12])
  · norm_num [claimRunningSumLog, pyRound, eps12]

/-- C10: on a frame-sorted strength curve with at least 3 keyframes whose
second and last frames differ (by at least `1e-12`), the
scale-inward-force-to-0 transform keeps the first two keyframes unchanged,
multiplies each later keyframe's value by
`1 - (frame - second_frame) / (last_frame - second_frame)` without moving
its frame, and the last keyframe's factor is exactly 0, so its strength
becomes exactly 0. -/
theorem scale_inward_correct (k0 k1 : Keyframe) (kfs2 : List Keyframe)
    (hne : kfs2 ≠ [])
    (hd : ¬ |(kfs2.getLast hne).co.1 - k1.co.1| < eps12) :
    scaleInwardSorted (k0 :: k1 :: kfs2)
        = k0 :: k1 :: kfs2.map (scaleKf k1.co.1 (kfs2.getLast hne).co.1)
    ∧ (∀ kf ∈ kfs2,
        (scaleKf k1.co.1 (kfs2.getLast hne).co.1 kf).co.1 = kf.co.1
        ∧ (scaleKf k1.co.1 (kfs2.getLast hne).co.1 kf).co.2
            = kf.co.2
              * scaleFactor k1.co.1 (kfs2.getLast hne).co.1 kf.co.1)
    ∧ scaleFactor k1.co.1 (kfs2.getLast hne).co.1
        (kfs2.getLast hne).co.1 = 0
    ∧ (scaleKf k1.co.1 (kfs2.getLast hne).co.1 (kfs2.getLast hne)).co.2
        = 0 := by
  have hden : (kfs2.getLast hne).co.1 - k1.co.1 ≠ 0 := by
    intro e
    apply hd
    rw [e]
    norm_num [eps12]
  have hfac : scaleFactor k1.co.1 (kfs2.getLast hne).co.1
      (kfs2.getLast hne).co.1 = 0 := by
    simp only [scaleFactor]
    rw [div_self hden]
    ring
  refine ⟨?_, ?_, hfac, ?_⟩
  · cases kfs2 with
    | nil => exact absurd rfl hne
    | cons k2 rest =>
      simp only [scaleInwardSorted]
      split_ifs with hcase
      · exact absurd hcase hd
      · rfl
  · intro kf _
    exact ⟨rfl, rfl⟩
  · simp only [scaleKf]
    rw [hfac]
    exact mul_zero _

/-- Witness for C10: a concrete 4-key curve with second frame 10 and last
frame 30; the last keyframe's strength ends at exactly 0. -/
theorem scale_inward_correct_witness :
    scaleInwardSorted
        [⟨(0, 0), (0, 0), (0, 0)⟩, ⟨(10, 5), (0, 0), (0, 0)⟩,
         ⟨(20, 4), (1, 2), (3, 4)⟩, ⟨(30, 6), (0, 0), (0, 0)⟩]
      = [⟨(0, 0), (0, 0), (0, 0)⟩, ⟨(10, 5), (0, 0), (0, 0)⟩,
         scaleKf 10 30 ⟨(20, 4), (1, 2), (3, 4)⟩,
         scaleKf 10 30 ⟨(30, 6), (0, 0), (0, 0)⟩]
    ∧ (scaleKf 10 30 ⟨(30, 6), (0, 0), (0, 0)⟩).co.2 = 0 := by
  have h := scale_inward_correct ⟨(0, 0), (0, 0), (0, 0)⟩
    ⟨(10, 5), (0, 0), (0, 0)⟩
    [⟨(20, 4), (1, 2), (3, 4)⟩, ⟨(30, 6), (0, 0), (0, 0)⟩]
    (by simp) (by norm_num [eps12, List.getLast])
  exact ⟨h.1, h.2.2.2⟩

/-- Counterexample for C5 as stated: in `script95-border.py` a
syntactically valid invocation naming a missing input file does not print
an error to standard output and exit; it raises an uncaught
`FileNotFoundError`. -/
theorem cli_error_handling_counterexample :
    script95Validate true false 1 = CliOutcome.uncaught "FileNotFoundError" :=
  rfl

/-- C5 (amended): every invalid invocation (wrong argument count, wrong
argument type, or missing input file) terminates abnormally — it never
proceeds, and any explicit exit carries a non-zero status — but the
mechanism varies: manual validation prints to stdout and exits 1,
`argparse` prints usage to stderr and exits 2, and a missing input file in
the rasterio/argparse scripts raises an uncaught exception. -/
theorem cli_error_handling_amended :
    (∀ (argc : ℕ) (sp ff : Bool), (argc ≠ 3 ∨ sp = false ∨ ff = false) →
        abnormal (script6Validate argc sp ff) = true)
    ∧ (∀ (ao ff : Bool) (bc : ℕ), (ao = false ∨ ff = false ∨ bc ≠ 1) →
        abnormal (script7Validate ao ff bc) = true)
    ∧ (∀ (ao ff : Bool) (bc : ℕ),
        (ao = false ∨ ff = false ∨ (bc ≠ 1 ∧ bc ≠ 4)) →
        abnormal (script95Validate ao ff bc) = true) := by
  refine ⟨?_, ?_, ?_⟩
  · intro argc sp ff h
    unfold script6Validate
    split_ifs with h1 h2 h3
    · rfl
    · rfl
    · rfl
    · rcases h with h | h | h <;> simp_all
  · intro ao ff bc h
    unfold script7Validate
    split_ifs with h1 h2 h3
    · rfl
    · rfl
    · rfl
    · rcases h with h | h | h <;> simp_all
  · intro ao ff bc h
    unfold script95Validate
    split_ifs with h1 h2 h3
    · rfl
    · rfl
    · rfl
    · rcases h with h | h | h <;> simp_all
/-- Witness for the amended C5 at concrete invalid invocations. -/
theorem cli_error_handling_amended_witness :
    abnormal (script6Validate 4 true true) = true
    ∧ abnormal (script7Validate true true 3) = true
    ∧ abnormal (script95Validate true false 1) = true :=
  ⟨cli_error_handling_amended.1 4 true true (Or.inl (by norm_num)),
   cli_error_handling_amended.2.1 true true 3 (Or.inr (Or.inr (by norm_num))),
   cli_error_handling_amended.2.2 true false 1 (Or.inr (Or.inl rfl))⟩
